import Mathlib

/-!
Verification of the entity code-generation pipeline in
`src/codegen/genentities.py`.

The script under `src/` is a straight-line orchestration:

  version_id = lib.code.version.get_version_id()
  mappings = lib.download.get_mappings_for_version(version_id)
  burger_data = lib.extract.get_burger_data_for_version(version_id)
  burger_entities_data = burger_data[0]['entities']
  lib.code.entity.generate_entity_metadata(burger_entities_data, mappings)
  lib.code.entity.generate_entity_dimensions(burger_entities_data)
  lib.code.utils.fmt()
  print('Done!')

The `lib.*` functions are code of this repository that is not under `src/`;
they are modelled from the spec (each such definition says so in its doc
comment).  The line `burger_data[0]['entities']` and the sequencing of the
stages are under `src/` and are embedded directly, with Python exception
semantics made explicit through an error type and `Except`.
-/

namespace GenEntities

/-- Error taxonomy.  `ConfigurationError` through `FormatError` are the
spec's error kinds (spec sect. 7); `KeyError` and `IndexError` are Python's
built-in exceptions, which the unguarded subscripts on line 12 of
`src/codegen/genentities.py` can raise. -/
inductive Err where
  | ConfigurationError
  | NotFoundError
  | RetrievalError
  | SchemaError
  | UnmappedEntityError (key : String)
  | MissingFieldError (key field : String)
  | FormatError
  | KeyError (key : String)
  | IndexError
  deriving DecidableEq, Repr

/-- A version identifier (spec sect. 3: an uninterpreted string). -/
abbrev VersionId := String

/-- Canonical naming/metadata for one raw identifier
(spec sect. 3 MappingTable values: name, numeric id, classification tags). -/
structure MappingEntry where
  name : String
  numericId : Nat
  tags : List String
  deriving DecidableEq, Repr

/-- MappingTable: raw-entity-identifier to canonical metadata, keys unique
as far as lookup is concerned (first match wins). -/
abbrev MappingTable := List (String × MappingEntry)

/-- First-match association lookup, the reading discipline of a Python dict
built from unique keys. -/
def tableLookup (M : MappingTable) (k : String) : Option MappingEntry :=
  match M with
  | [] => none
  | (k', v) :: rest => if k' = k then some v else tableLookup rest k

/-- One entity's raw attributes as extracted (spec sect. 3: at minimum an
identifying key, plus loosely structured attribute fields; attribute values
are kept as raw text). -/
structure RawEntityRecord where
  key : String
  attrs : List (String × String)
  deriving DecidableEq, Repr

/-- Attribute lookup inside a raw record. -/
def attrLookup (a : List (String × String)) (f : String) : Option String :=
  match a with
  | [] => none
  | (f', v) :: rest => if f' = f then some v else attrLookup rest f

/-- One emitted metadata declaration: the record's raw attributes combined
with the mapping's canonical entry (spec sect. 4.4). -/
structure MetadataDecl where
  record : RawEntityRecord
  mapping : MappingEntry
  deriving DecidableEq, Repr

/-- One emitted dimension declaration: the record's identifying key and its
dimensional fields (spec sect. 4.5). -/
structure DimensionDecl where
  key : String
  dims : List (String × String)
  deriving DecidableEq, Repr

/-- Modelled from the spec: the dimensional field set of
`lib.code.entity.generate_entity_dimensions` (not under `src/`).  Spec
sect. 4.5 and sect. 9 treat it as a configured named-field list; the
end-to-end scenario of sect. 8 uses width and height. -/
def dimension_fields : List String := ["width", "height"]

/-- Modelled from the spec: `lib.code.entity.generate_entity_metadata`
(not under `src/`).  Spec sect. 4.4: for each record, look up its
identifying key in the mapping table; if found, emit one declaration
combining the raw record with the canonical entry, in original order; if
not found, signal `UnmappedEntityError` identifying the offending key and
emit nothing. -/
def generate_entity_metadata (E : List RawEntityRecord) (M : MappingTable) :
    Except Err (List MetadataDecl) :=
  match E with
  | [] => .ok []
  | r :: rest =>
    match tableLookup M r.key with
    | none => .error (.UnmappedEntityError r.key)
    | some m =>
      match generate_entity_metadata rest M with
      | .error e => .error e
      | .ok ds => .ok (⟨r, m⟩ :: ds)

/-- Modelled from the spec: the per-record dimensional extraction of
`lib.code.entity.generate_entity_dimensions` (not under `src/`).  Spec
sect. 4.5: extract each configured dimensional field; a record lacking a
required field fails with `MissingFieldError` naming the record and field. -/
def record_dimensions (r : RawEntityRecord) : List String →
    Except Err (List (String × String))
  | [] => .ok []
  | f :: fs =>
    match attrLookup r.attrs f with
    | none => .error (.MissingFieldError r.key f)
    | some v =>
      match record_dimensions r fs with
      | .error e => .error e
      | .ok rest => .ok ((f, v) :: rest)

/-- Modelled from the spec: `lib.code.entity.generate_entity_dimensions`
(not under `src/`).  Spec sect. 4.5: one declaration per entity, in
original order, consulting only the entity records (no mapping table
parameter). -/
def generate_entity_dimensions (E : List RawEntityRecord) :
    Except Err (List DimensionDecl) :=
  match E with
  | [] => .ok []
  | r :: rest =>
    match record_dimensions r dimension_fields with
    | .error e => .error e
    | .ok ds =>
      match generate_entity_dimensions rest with
      | .error e => .error e
      | .ok tl => .ok (⟨r.key, ds⟩ :: tl)

/-- One heterogeneous data group of the extracted dataset; only the
`"entities"` field is ever consulted by this core, so values are kept at
that field's type. -/
abbrev BurgerGroup := List (String × List RawEntityRecord)

/-- The extracted dataset: an ordered sequence of data groups. -/
abbrev BurgerData := List BurgerGroup

/-- Dict lookup inside one group. -/
def groupLookup (g : BurgerGroup) (k : String) : Option (List RawEntityRecord) :=
  match g with
  | [] => none
  | (k', v) :: rest => if k' = k then some v else groupLookup rest k

/-- The access `burger_data[0]['entities']` on line 12 of
`src/codegen/genentities.py`, with Python subscript semantics: `[0]` on an
empty list raises `IndexError`; `['entities']` on a dict lacking the key
raises `KeyError`. -/
def burger_entities_data (bd : BurgerData) : Except Err (List RawEntityRecord) :=
  match bd with
  | [] => .error .IndexError
  | g :: _ =>
    match groupLookup g "entities" with
    | none => .error (.KeyError "entities")
    | some es => .ok es

/-- Modelled from the spec: the external collaborators the script calls.
`get_version_id` embeds `lib.code.version.get_version_id` (spec sect. 4.1),
`get_mappings_for_version` embeds `lib.download.get_mappings_for_version`
(spec sect. 4.2), `get_burger_data_for_version` embeds
`lib.extract.get_burger_data_for_version` (spec sect. 4.3), and
`fmt_result` embeds the outcome of `lib.code.utils.fmt` (spec sect. 4.6).
None of them is under `src/`; per spec sect. 5 each is a pure read for the
duration of a run, so each is a function of its argument alone, fallible
through `Except`. -/
structure Env where
  get_version_id : Except Err VersionId
  get_mappings_for_version : VersionId → Except Err MappingTable
  get_burger_data_for_version : VersionId → Except Err BurgerData
  fmt_result : Except Err Unit

/-- One observable step of the run: each external or generator call the
script makes, recorded with the arguments it was given, plus the final
`print('Done!')`.  `callFmt` carries no argument because `fmt()` is invoked
with none. -/
inductive Event where
  | callResolve
  | callGetMappings (v : VersionId)
  | callGetBurger (v : VersionId)
  | callGenMetadata (E : List RawEntityRecord) (M : MappingTable)
  | callGenDimensions (E : List RawEntityRecord)
  | callFmt
  | printDone
  deriving DecidableEq, Repr

/-- Everything observable about one run: the ordered trace of calls, the
final outcome (an uncaught error or normal termination), and the two
artifacts, each `some` exactly when its generator call returned. -/
structure RunOut where
  trace : List Event
  result : Except Err Unit
  metadata_artifact : Option (List MetadataDecl)
  dimensions_artifact : Option (List DimensionDecl)
  deriving Repr

/-- The module body of `src/codegen/genentities.py`, statement by
statement.  Python exception semantics: the first stage that raises aborts
the rest of the script, and the uncaught exception becomes the run's
outcome. -/
def run (env : Env) : RunOut :=
  match env.get_version_id with
  | .error e => ⟨[.callResolve], .error e, none, none⟩
  | .ok version_id =>
    match env.get_mappings_for_version version_id with
    | .error e =>
      ⟨[.callResolve, .callGetMappings version_id], .error e, none, none⟩
    | .ok mappings =>
      match env.get_burger_data_for_version version_id with
      | .error e =>
        ⟨[.callResolve, .callGetMappings version_id,
          .callGetBurger version_id], .error e, none, none⟩
      | .ok burger_data =>
        match burger_entities_data burger_data with
        | .error e =>
          ⟨[.callResolve, .callGetMappings version_id,
            .callGetBurger version_id], .error e, none, none⟩
        | .ok entities =>
          match generate_entity_metadata entities mappings with
          | .error e =>
            ⟨[.callResolve, .callGetMappings version_id,
              .callGetBurger version_id,
              .callGenMetadata entities mappings], .error e, none, none⟩
          | .ok meta =>
            match generate_entity_dimensions entities with
            | .error e =>
              ⟨[.callResolve, .callGetMappings version_id,
                .callGetBurger version_id,
                .callGenMetadata entities mappings,
                .callGenDimensions entities], .error e, some meta, none⟩
            | .ok dims =>
              match env.fmt_result with
              | .error e =>
                ⟨[.callResolve, .callGetMappings version_id,
                  .callGetBurger version_id,
                  .callGenMetadata entities mappings,
                  .callGenDimensions entities, .callFmt],
                 .error e, some meta, some dims⟩
              | .ok _ =>
                ⟨[.callResolve, .callGetMappings version_id,
                  .callGetBurger version_id,
                  .callGenMetadata entities mappings,
                  .callGenDimensions entities, .callFmt, .printDone],
                 .ok (), some meta, some dims⟩

/-- Process exit status: 0 on normal termination, non-zero when an
uncaught exception terminates the interpreter. -/
def exit_code (env : Env) : Nat :=
  match (run env).result with
  | .ok _ => 0
  | .error _ => 1

/-- The two provider calls in source order (lines 9-10 of the script):
mappings first, then extracted data, both keyed by the same version. -/
def fetch_in_order (env : Env) (v : VersionId) :
    Except Err MappingTable × Except Err BurgerData :=
  let m := env.get_mappings_for_version v
  let d := env.get_burger_data_for_version v
  (m, d)

/-- The two provider calls with their order swapped: extracted data first,
then mappings. -/
def fetch_swapped (env : Env) (v : VersionId) :
    Except Err MappingTable × Except Err BurgerData :=
  let d := env.get_burger_data_for_version v
  let m := env.get_mappings_for_version v
  (m, d)

/-- The end-to-end scenario record of spec sect. 8:
`{"key":"7","width":0.9,"height":1.4}` with numbers kept as raw text. -/
def cow : RawEntityRecord := ⟨"7", [("width", "0.9"), ("height", "1.4")]⟩

/-- The end-to-end scenario mapping table of spec sect. 8:
`{ "7": {"name":"cow"} }`. -/
def cowTable : MappingTable := [("7", ⟨"cow", 7, []⟩)]

/-- A fully successful environment, after the end-to-end scenario of spec
sect. 8 (version "1.20", one mapped entity). -/
def envOk : Env :=
  ⟨.ok "1.20", fun _ => .ok cowTable,
   fun _ => .ok [[("entities", [cow])]], .ok ()⟩

/-- An environment whose extracted dataset's first group lacks the
`"entities"` field (a later group has it). -/
def envNoEntities : Env :=
  ⟨.ok "1.20", fun _ => .ok cowTable,
   fun _ => .ok [[("blocks", [])], [("entities", [cow])]], .ok ()⟩

/-- An environment whose version resolution fails. -/
def envNoVersion : Env :=
  ⟨.error .ConfigurationError, fun _ => .ok cowTable,
   fun _ => .ok [[("entities", [cow])]], .ok ()⟩

/-- The second scenario of spec sect. 8: same data, empty mapping table. -/
def envEmptyTable : Env :=
  ⟨.ok "1.20", fun _ => .ok [],
   fun _ => .ok [[("entities", [cow])]], .ok ()⟩

/-! ### Run shape lemmas
One lemma per abort point of the script, plus one for the successful run:
together they enumerate every possible `RunOut`. -/

theorem run_resolve_error (env : Env) (e : Err)
    (h : env.get_version_id = .error e) :
    run env = ⟨[.callResolve], .error e, none, none⟩ := by
  simp only [run, h]

theorem run_mappings_error (env : Env) (v : VersionId) (e : Err)
    (hv : env.get_version_id = .ok v)
    (hm : env.get_mappings_for_version v = .error e) :
    run env = ⟨[.callResolve, .callGetMappings v], .error e, none, none⟩ := by
  simp only [run, hv, hm]

theorem run_burger_error (env : Env) (v : VersionId) (M : MappingTable) (e : Err)
    (hv : env.get_version_id = .ok v)
    (hm : env.get_mappings_for_version v = .ok M)
    (hb : env.get_burger_data_for_version v = .error e) :
    run env = ⟨[.callResolve, .callGetMappings v, .callGetBurger v],
               .error e, none, none⟩ := by
  simp only [run, hv, hm, hb]

theorem run_access_error (env : Env) (v : VersionId) (M : MappingTable)
    (bd : BurgerData) (e : Err)
    (hv : env.get_version_id = .ok v)
    (hm : env.get_mappings_for_version v = .ok M)
    (hb : env.get_burger_data_for_version v = .ok bd)
    (ha : burger_entities_data bd = .error e) :
    run env = ⟨[.callResolve, .callGetMappings v, .callGetBurger v],
               .error e, none, none⟩ := by
  simp only [run, hv, hm, hb, ha]

theorem run_meta_error (env : Env) (v : VersionId) (M : MappingTable)
    (bd : BurgerData) (E : List RawEntityRecord) (e : Err)
    (hv : env.get_version_id = .ok v)
    (hm : env.get_mappings_for_version v = .ok M)
    (hb : env.get_burger_data_for_version v = .ok bd)
    (ha : burger_entities_data bd = .ok E)
    (hg : generate_entity_metadata E M = .error e) :
    run env = ⟨[.callResolve, .callGetMappings v, .callGetBurger v,
                .callGenMetadata E M], .error e, none, none⟩ := by
  simp only [run, hv, hm, hb, ha, hg]

theorem run_dims_error (env : Env) (v : VersionId) (M : MappingTable)
    (bd : BurgerData) (E : List RawEntityRecord)
    (meta : List MetadataDecl) (e : Err)
    (hv : env.get_version_id = .ok v)
    (hm : env.get_mappings_for_version v = .ok M)
    (hb : env.get_burger_data_for_version v = .ok bd)
    (ha : burger_entities_data bd = .ok E)
    (hg : generate_entity_metadata E M = .ok meta)
    (hd : generate_entity_dimensions E = .error e) :
    run env = ⟨[.callResolve, .callGetMappings v, .callGetBurger v,
                .callGenMetadata E M, .callGenDimensions E],
               .error e, some meta, none⟩ := by
  simp only [run, hv, hm, hb, ha, hg, hd]

theorem run_fmt_error (env : Env) (v : VersionId) (M : MappingTable)
    (bd : BurgerData) (E : List RawEntityRecord)
    (meta : List MetadataDecl) (dims : List DimensionDecl) (e : Err)
    (hv : env.get_version_id = .ok v)
    (hm : env.get_mappings_for_version v = .ok M)
    (hb : env.get_burger_data_for_version v = .ok bd)
    (ha : burger_entities_data bd = .ok E)
    (hg : generate_entity_metadata E M = .ok meta)
    (hd : generate_entity_dimensions E = .ok dims)
    (hf : env.fmt_result = .error e) :
    run env = ⟨[.callResolve, .callGetMappings v, .callGetBurger v,
                .callGenMetadata E M, .callGenDimensions E, .callFmt],
               .error e, some meta, some dims⟩ := by
  simp only [run, hv, hm, hb, ha, hg, hd, hf]

theorem run_all_ok (env : Env) (v : VersionId) (M : MappingTable)
    (bd : BurgerData) (E : List RawEntityRecord)
    (meta : List MetadataDecl) (dims : List DimensionDecl)
    (hv : env.get_version_id = .ok v)
    (hm : env.get_mappings_for_version v = .ok M)
    (hb : env.get_burger_data_for_version v = .ok bd)
    (ha : burger_entities_data bd = .ok E)
    (hg : generate_entity_metadata E M = .ok meta)
    (hd : generate_entity_dimensions E = .ok dims)
    (hf : env.fmt_result = .ok ()) :
    run env = ⟨[.callResolve, .callGetMappings v, .callGetBurger v,
                .callGenMetadata E M, .callGenDimensions E, .callFmt,
                .printDone], .ok (), some meta, some dims⟩ := by
  simp only [run, hv, hm, hb, ha, hg, hd, hf]

/-- Case split driving every trace proof: a run halts at one of the eight
abort points or completes. -/
theorem run_cases (env : Env) :
    (∃ e, env.get_version_id = .error e ∧
      run env = ⟨[.callResolve], .error e, none, none⟩) ∨
    (∃ v, env.get_version_id = .ok v ∧
      ((∃ e, env.get_mappings_for_version v = .error e ∧
        run env = ⟨[.callResolve, .callGetMappings v], .error e, none, none⟩) ∨
      (∃ M, env.get_mappings_for_version v = .ok M ∧
        ((∃ e, env.get_burger_data_for_version v = .error e ∧
          run env = ⟨[.callResolve, .callGetMappings v, .callGetBurger v],
                     .error e, none, none⟩) ∨
        (∃ bd, env.get_burger_data_for_version v = .ok bd ∧
          ((∃ e, burger_entities_data bd = .error e ∧
            run env = ⟨[.callResolve, .callGetMappings v, .callGetBurger v],
                       .error e, none, none⟩) ∨
          (∃ E, burger_entities_data bd = .ok E ∧
            ((∃ e, generate_entity_metadata E M = .error e ∧
              run env = ⟨[.callResolve, .callGetMappings v, .callGetBurger v,
                          .callGenMetadata E M], .error e, none, none⟩) ∨
            (∃ meta, generate_entity_metadata E M = .ok meta ∧
              ((∃ e, generate_entity_dimensions E = .error e ∧
                run env = ⟨[.callResolve, .callGetMappings v, .callGetBurger v,
                            .callGenMetadata E M, .callGenDimensions E],
                           .error e, some meta, none⟩) ∨
              (∃ dims, generate_entity_dimensions E = .ok dims ∧
                ((∃ e, env.fmt_result = .error e ∧
                  run env = ⟨[.callResolve, .callGetMappings v, .callGetBurger v,
                              .callGenMetadata E M, .callGenDimensions E,
                              .callFmt], .error e, some meta, some dims⟩) ∨
                (env.fmt_result = .ok () ∧
                  run env = ⟨[.callResolve, .callGetMappings v, .callGetBurger v,
                              .callGenMetadata E M, .callGenDimensions E,
                              .callFmt, .printDone],
                             .ok (), some meta, some dims⟩))))))))))))) := by
  rcases hv : env.get_version_id with e | v
  · exact Or.inl ⟨e, rfl, run_resolve_error env e hv⟩
  refine Or.inr ⟨v, rfl, ?_⟩
  rcases hm : env.get_mappings_for_version v with e | M
  · exact Or.inl ⟨e, rfl, run_mappings_error env v e hv hm⟩
  refine Or.inr ⟨M, rfl, ?_⟩
  rcases hb : env.get_burger_data_for_version v with e | bd
  · exact Or.inl ⟨e, rfl, run_burger_error env v M e hv hm hb⟩
  refine Or.inr ⟨bd, rfl, ?_⟩
  rcases ha : burger_entities_data bd with e | E
  · exact Or.inl ⟨e, rfl, run_access_error env v M bd e hv hm hb ha⟩
  refine Or.inr ⟨E, rfl, ?_⟩
  rcases hg : generate_entity_metadata E M with e | meta
  · exact Or.inl ⟨e, rfl, run_meta_error env v M bd E e hv hm hb ha hg⟩
  refine Or.inr ⟨meta, rfl, ?_⟩
  rcases hd : generate_entity_dimensions E with e | dims
  · exact Or.inl ⟨e, rfl, run_dims_error env v M bd E meta e hv hm hb ha hg hd⟩
  refine Or.inr ⟨dims, rfl, ?_⟩
  rcases hf : env.fmt_result with e | u
  · exact Or.inl ⟨e, rfl, run_fmt_error env v M bd E meta dims e hv hm hb ha hg hd hf⟩
  · exact Or.inr ⟨rfl, run_all_ok env v M bd E meta dims hv hm hb ha hg hd hf⟩

/-! ### Claims C1 and C2: the metadata generator -/

/-- C1: EntityMetadataGenerator is total-or-fails.  If every record's
identifying key of `E` exists in `M`, generation succeeds and emits exactly
`E.length` declarations; if any record's key is missing from `M`,
generation fails with `UnmappedEntityError` naming an offending key of a
record of `E` (and, being an error, emits nothing). -/
theorem metadata_total_or_fails (E : List RawEntityRecord) (M : MappingTable) :
    ((∀ r ∈ E, (tableLookup M r.key).isSome) →
      ∃ ds, generate_entity_metadata E M = .ok ds ∧ ds.length = E.length) ∧
    ((∃ r ∈ E, tableLookup M r.key = none) →
      ∃ r, r ∈ E ∧ tableLookup M r.key = none ∧
        generate_entity_metadata E M = .error (.UnmappedEntityError r.key)) := by
  induction E with
  | nil =>
    refine ⟨fun _ => ⟨[], rfl, rfl⟩, ?_⟩
    rintro ⟨r, hr, -⟩
    cases hr
  | cons a rest ih =>
    constructor
    · intro h
      have ha := h a (List.mem_cons_self a rest)
      rcases hma : tableLookup M a.key with - | m
      · rw [hma] at ha
        simp at ha
      · obtain ⟨ds, hds, hlen⟩ := ih.1 (fun r hr => h r (List.mem_cons_of_mem a hr))
        exact ⟨⟨a, m⟩ :: ds, by simp [generate_entity_metadata, hma, hds],
               by simp [hlen]⟩
    · rintro ⟨r, hr, hnone⟩
      rcases hma : tableLookup M a.key with - | m
      · exact ⟨a, List.mem_cons_self a rest, hma,
               by simp [generate_entity_metadata, hma]⟩
      · have hrrest : r ∈ rest := by
          rcases List.mem_cons.mp hr with h1 | h1
          · subst h1
            rw [hma] at hnone
            cases hnone
          · exact h1
        obtain ⟨r', hr', hn', herr⟩ := ih.2 ⟨r, hrrest, hnone⟩
        exact ⟨r', List.mem_cons_of_mem a hr', hn',
               by simp [generate_entity_metadata, hma, herr]⟩

/-- Witness for C1 at the end-to-end scenarios of spec sect. 8: the single
mapped record succeeds with one declaration; the empty mapping table fails
naming key "7". -/
theorem metadata_total_or_fails_witness :
    (∃ ds, generate_entity_metadata [cow] cowTable = .ok ds ∧
      ds.length = [cow].length) ∧
    (∃ r, r ∈ [cow] ∧ tableLookup [] r.key = none ∧
      generate_entity_metadata [cow] [] = .error (.UnmappedEntityError r.key)) :=
  ⟨(metadata_total_or_fails [cow] cowTable).1 (by decide),
   (metadata_total_or_fails [cow] []).2 ⟨cow, List.mem_cons_self cow [], rfl⟩⟩

/-- C2: EntityMetadataGenerator preserves input order.  When generation
succeeds, there are as many declarations as records, and the i-th
declaration carries the i-th record together with that record's mapping
entry. -/
theorem metadata_preserves_order (E : List RawEntityRecord) (M : MappingTable)
    (ds : List MetadataDecl) (h : generate_entity_metadata E M = .ok ds) :
    ds.length = E.length ∧
    ∀ i (hi : i < E.length) (hd : i < ds.length),
      (ds.get ⟨i, hd⟩).record = E.get ⟨i, hi⟩ ∧
      tableLookup M (E.get ⟨i, hi⟩).key = some (ds.get ⟨i, hd⟩).mapping := by
  induction E generalizing ds with
  | nil =>
    simp only [generate_entity_metadata, Except.ok.injEq] at h
    subst h
    refine ⟨rfl, ?_⟩
    intro i hi
    cases hi
  | cons a rest ih =>
    rcases hma : tableLookup M a.key with - | m
    · simp [generate_entity_metadata, hma] at h
    · rcases hrest : generate_entity_metadata rest M with e | ds'
      · simp [generate_entity_metadata, hma, hrest] at h
      · simp only [generate_entity_metadata, hma, hrest, Except.ok.injEq] at h
        subst h
        obtain ⟨hlen, hidx⟩ := ih ds' hrest
        refine ⟨by simp [hlen], ?_⟩
        intro i hi hd
        cases i with
        | zero => exact ⟨rfl, by simpa using hma⟩
        | succ n =>
          have hn : n < rest.length := by simpa using hi
          have hd' : n < ds'.length := by simpa using hd
          simpa using hidx n hn hd'

/-- The declaration the sect. 8 scenario emits for `cow`. -/
def cowDecl : MetadataDecl := ⟨cow, ⟨"cow", 7, []⟩⟩

/-- Witness for C2 at the sect. 8 scenario, index 0 instantiated. -/
theorem metadata_preserves_order_witness :
    [cowDecl].length = [cow].length ∧
    ([cowDecl].get ⟨0, Nat.zero_lt_one⟩).record = [cow].get ⟨0, Nat.zero_lt_one⟩ ∧
    tableLookup cowTable (([cow].get ⟨0, Nat.zero_lt_one⟩).key) =
      some ([cowDecl].get ⟨0, Nat.zero_lt_one⟩).mapping :=
  ⟨(metadata_preserves_order [cow] cowTable [cowDecl] rfl).1,
   ((metadata_preserves_order [cow] cowTable [cowDecl] rfl).2 0
     Nat.zero_lt_one Nat.zero_lt_one).1,
   ((metadata_preserves_order [cow] cowTable [cowDecl] rfl).2 0
     Nat.zero_lt_one Nat.zero_lt_one).2⟩

/-! ### Claims C3 and C9: the `burger_data[0]['entities']` access -/

/-- C3 counterexample: with a dataset whose first group lacks the
`"entities"` field, the run fails with Python's built-in `KeyError`, not
with the spec's `SchemaError`. -/
theorem entities_access_not_schema_error :
    (run envNoEntities).result = .error (.KeyError "entities") ∧
    (run envNoEntities).result ≠ .error .SchemaError := by
  have h : (run envNoEntities).result = .error (.KeyError "entities") := rfl
  refine ⟨h, ?_⟩
  rw [h]
  simp

/-- C3 (amended): if the group at position 0 lacks the `"entities"` field,
extraction fails with a `KeyError` (the unguarded dict access on line 12);
if the field is present, extraction of the entities sequence succeeds. -/
theorem entities_access_key_error (g : BurgerGroup) (rest : List BurgerGroup) :
    (groupLookup g "entities" = none →
      burger_entities_data (g :: rest) = .error (.KeyError "entities")) ∧
    (∀ es, groupLookup g "entities" = some es →
      burger_entities_data (g :: rest) = .ok es) := by
  constructor
  · intro h
    simp [burger_entities_data, h]
  · intro es h
    simp [burger_entities_data, h]

/-- Witness for the amended C3: a first group without the field fails even
though a later group has it; a first group with the field succeeds. -/
theorem entities_access_key_error_witness :
    burger_entities_data [[("blocks", [])], [("entities", [cow])]] =
      .error (.KeyError "entities") ∧
    burger_entities_data [[("entities", [cow])]] = .ok [cow] :=
  ⟨(entities_access_key_error [("blocks", [])] [[("entities", [cow])]]).1 rfl,
   (entities_access_key_error [("entities", [cow])] []).2 [cow] rfl⟩

/-- C9: the pipeline reads exactly the group at index 0 and then its
`"entities"` key.  An empty dataset fails (`IndexError`); a first group
with the key succeeds with its value; a first group without the key fails
(`KeyError`) no matter what the later groups hold; and an access failure
aborts the run with that error and no artifacts. -/
theorem entities_access_position_zero (bd : BurgerData) :
    (bd = [] → burger_entities_data bd = .error .IndexError) ∧
    (∀ g rest es, bd = g :: rest → groupLookup g "entities" = some es →
      burger_entities_data bd = .ok es) ∧
    (∀ g rest, bd = g :: rest → groupLookup g "entities" = none →
      burger_entities_data bd = .error (.KeyError "entities")) ∧
    (∀ env v M e, env.get_version_id = .ok v →
      env.get_mappings_for_version v = .ok M →
      env.get_burger_data_for_version v = .ok bd →
      burger_entities_data bd = .error e →
      (run env).result = .error e ∧ (run env).metadata_artifact = none ∧
        (run env).dimensions_artifact = none) := by
  refine ⟨?_, ?_, ?_, ?_⟩
  · rintro rfl
    rfl
  · rintro g rest es rfl h
    simp [burger_entities_data, h]
  · rintro g rest rfl h
    simp [burger_entities_data, h]
  · intro env v M e hv hm hb ha
    rw [run_access_error env v M bd e hv hm hb ha]
    exact ⟨rfl, rfl, rfl⟩

/-- Witness for C9: all four parts at concrete datasets, the last at the
environment whose first group lacks the field. -/
theorem entities_access_position_zero_witness :
    burger_entities_data [] = .error .IndexError ∧
    burger_entities_data [[("entities", [cow])]] = .ok [cow] ∧
    burger_entities_data [[("blocks", [])], [("entities", [cow])]] =
      .error (.KeyError "entities") ∧
    ((run envNoEntities).result = .error (.KeyError "entities") ∧
      (run envNoEntities).metadata_artifact = none ∧
      (run envNoEntities).dimensions_artifact = none) :=
  ⟨(entities_access_position_zero []).1 rfl,
   (entities_access_position_zero [[("entities", [cow])]]).2.1
     [("entities", [cow])] [] [cow] rfl rfl,
   (entities_access_position_zero [[("blocks", [])], [("entities", [cow])]]).2.2.1
     [("blocks", [])] [[("entities", [cow])]] rfl rfl,
   (entities_access_position_zero [[("blocks", [])], [("entities", [cow])]]).2.2.2
     envNoEntities "1.20" cowTable (.KeyError "entities") rfl rfl rfl rfl⟩

/-! ### Claim C4: fail-fast propagation, exit status and acknowledgment -/

/-- C4: every stage error propagates to the top and aborts the run: when
the run's outcome is an error, `Done!` is not printed and the exit status
is non-zero; when the run completes, `Done!` is printed and the exit status
is zero.  Moreover each stage's error becomes the run's outcome unchanged
(no local recovery), stage by stage. -/
theorem errors_propagate_no_recovery (env : Env) :
    (∀ e, (run env).result = .error e →
      Event.printDone ∉ (run env).trace ∧ exit_code env ≠ 0) ∧
    ((run env).result = .ok () →
      Event.printDone ∈ (run env).trace ∧ exit_code env = 0) ∧
    (∀ e, env.get_version_id = .error e → (run env).result = .error e) ∧
    (∀ v e, env.get_version_id = .ok v →
      env.get_mappings_for_version v = .error e →
      (run env).result = .error e) ∧
    (∀ v M e, env.get_version_id = .ok v →
      env.get_mappings_for_version v = .ok M →
      env.get_burger_data_for_version v = .error e →
      (run env).result = .error e) ∧
    (∀ v M bd e, env.get_version_id = .ok v →
      env.get_mappings_for_version v = .ok M →
      env.get_burger_data_for_version v = .ok bd →
      burger_entities_data bd = .error e →
      (run env).result = .error e) ∧
    (∀ v M bd E e, env.get_version_id = .ok v →
      env.get_mappings_for_version v = .ok M →
      env.get_burger_data_for_version v = .ok bd →
      burger_entities_data bd = .ok E →
      generate_entity_metadata E M = .error e →
      (run env).result = .error e) ∧
    (∀ v M bd E meta e, env.get_version_id = .ok v →
      env.get_mappings_for_version v = .ok M →
      env.get_burger_data_for_version v = .ok bd →
      burger_entities_data bd = .ok E →
      generate_entity_metadata E M = .ok meta →
      generate_entity_dimensions E = .error e →
      (run env).result = .error e) ∧
    (∀ v M bd E meta dims e, env.get_version_id = .ok v →
      env.get_mappings_for_version v = .ok M →
      env.get_burger_data_for_version v = .ok bd →
      burger_entities_data bd = .ok E →
      generate_entity_metadata E M = .ok meta →
      generate_entity_dimensions E = .ok dims →
      env.fmt_result = .error e →
      (run env).result = .error e) := by
  refine ⟨?_, ?_, ?_, ?_, ?_, ?_, ?_, ?_, ?_⟩
  · intro e he
    rcases run_cases env with ⟨e0, hv, hrun⟩ |
      ⟨v, hv, ⟨e0, hm, hrun⟩ | ⟨M, hm, ⟨e0, hb, hrun⟩ | ⟨bd, hb, ⟨e0, ha, hrun⟩ |
      ⟨E, ha, ⟨e0, hg, hrun⟩ | ⟨meta, hg, ⟨e0, hd, hrun⟩ | ⟨dims, hd,
      ⟨e0, hf, hrun⟩ | ⟨hf, hrun⟩⟩⟩⟩⟩⟩⟩ <;>
      simp [hrun, exit_code] at he ⊢
  · intro hok
    rcases run_cases env with ⟨e0, hv, hrun⟩ |
      ⟨v, hv, ⟨e0, hm, hrun⟩ | ⟨M, hm, ⟨e0, hb, hrun⟩ | ⟨bd, hb, ⟨e0, ha, hrun⟩ |
      ⟨E, ha, ⟨e0, hg, hrun⟩ | ⟨meta, hg, ⟨e0, hd, hrun⟩ | ⟨dims, hd,
      ⟨e0, hf, hrun⟩ | ⟨hf, hrun⟩⟩⟩⟩⟩⟩⟩ <;>
      simp [hrun, exit_code] at hok ⊢
  · intro e h
    rw [run_resolve_error env e h]
  · intro v e hv hm
    rw [run_mappings_error env v e hv hm]
  · intro v M e hv hm hb
    rw [run_burger_error env v M e hv hm hb]
  · intro v M bd e hv hm hb ha
    rw [run_access_error env v M bd e hv hm hb ha]
  · intro v M bd E e hv hm hb ha hg
    rw [run_meta_error env v M bd E e hv hm hb ha hg]
  · intro v M bd E meta e hv hm hb ha hg hd
    rw [run_dims_error env v M bd E meta e hv hm hb ha hg hd]
  · intro v M bd E meta dims e hv hm hb ha hg hd hf
    rw [run_fmt_error env v M bd E meta dims e hv hm hb ha hg hd hf]

/-- Witness for C4: a failing run (unresolvable version) prints nothing
and exits non-zero with the stage's own error; the sect. 8 scenario run
prints `Done!` and exits 0. -/
theorem errors_propagate_no_recovery_witness :
    (Event.printDone ∉ (run envNoVersion).trace ∧ exit_code envNoVersion ≠ 0) ∧
    (Event.printDone ∈ (run envOk).trace ∧ exit_code envOk = 0) ∧
    (run envNoVersion).result = .error .ConfigurationError :=
  ⟨(errors_propagate_no_recovery envNoVersion).1 .ConfigurationError rfl,
   (errors_propagate_no_recovery envOk).2.1 rfl,
   (errors_propagate_no_recovery envNoVersion).2.2.1 .ConfigurationError rfl⟩

/-! ### Claim C5: dimensions are independent of the mapping table -/

/-- A run produced a dimensions artifact exactly when version resolution,
data retrieval, access and dimension generation all succeeded, and the
artifact is the generator's output on the retrieved entities. -/
theorem dims_artifact_from_entities (env : Env) (d : List DimensionDecl)
    (h : (run env).dimensions_artifact = some d) :
    ∃ v bd E, env.get_version_id = .ok v ∧
      env.get_burger_data_for_version v = .ok bd ∧
      burger_entities_data bd = .ok E ∧
      generate_entity_dimensions E = .ok d := by
  rcases run_cases env with ⟨e0, hv, hrun⟩ |
    ⟨v, hv, ⟨e0, hm, hrun⟩ | ⟨M, hm, ⟨e0, hb, hrun⟩ | ⟨bd, hb, ⟨e0, ha, hrun⟩ |
    ⟨E, ha, ⟨e0, hg, hrun⟩ | ⟨meta, hg, ⟨e0, hd, hrun⟩ | ⟨dims, hd,
    ⟨e0, hf, hrun⟩ | ⟨hf, hrun⟩⟩⟩⟩⟩⟩⟩ <;> rw [hrun] at h <;> simp at h <;>
    exact ⟨v, bd, E, hv, hb, ha, h ▸ hd⟩

/-- C5: EntityDimensionGenerator is independent of MappingTable.  Two runs
whose version resolution and extracted-data provider agree — the mapping
providers and formatter outcomes may differ arbitrarily — produce
identical dimension artifacts whenever both produce one. -/
theorem dimensions_independent_of_mappings (env1 env2 : Env)
    (hv : env1.get_version_id = env2.get_version_id)
    (hb : env1.get_burger_data_for_version = env2.get_burger_data_for_version)
    (d1 d2 : List DimensionDecl)
    (h1 : (run env1).dimensions_artifact = some d1)
    (h2 : (run env2).dimensions_artifact = some d2) :
    d1 = d2 := by
  obtain ⟨v1, bd1, E1, hv1, hb1, ha1, hd1⟩ := dims_artifact_from_entities env1 d1 h1
  obtain ⟨v2, bd2, E2, hv2, hb2, ha2, hd2⟩ := dims_artifact_from_entities env2 d2 h2
  have hvv : v1 = v2 := Except.ok.inj ((hv1.symm.trans hv).trans hv2)
  subst hvv
  have hbb : bd1 = bd2 :=
    Except.ok.inj ((hb1.symm.trans (congrFun hb v1)).trans hb2)
  subst hbb
  have hee : E1 = E2 := Except.ok.inj (ha1.symm.trans ha2)
  subst hee
  exact Except.ok.inj (hd1.symm.trans hd2)

/-- A second mapping table, disjoint from `cowTable` in content. -/
def cowTableAlt : MappingTable := [("7", ⟨"vache", 99, ["animal"]⟩)]

/-- Variant of envOk with the alternative mapping table and a failing formatter:
only the mapping-independent inputs agree with `envOk`. -/
def envOkAlt : Env :=
  ⟨.ok "1.20", fun _ => .ok cowTableAlt,
   fun _ => .ok [[("entities", [cow])]], .error .FormatError⟩

/-- The dimension artifact of the sect. 8 scenario. -/
def cowDims : List DimensionDecl :=
  [⟨"7", [("width", "0.9"), ("height", "1.4")]⟩]

/-- Witness for C5: the runs over `envOk` and `envOkAlt` (different
mapping tables, different formatter outcomes) both emit `cowDims`, and the
theorem applied to them yields that equality. -/
theorem dimensions_independent_of_mappings_witness :
    (run envOk).dimensions_artifact = some cowDims ∧
    (run envOkAlt).dimensions_artifact = some cowDims ∧
    cowDims = cowDims :=
  ⟨rfl, rfl,
   dimensions_independent_of_mappings envOk envOkAlt rfl rfl cowDims cowDims
     rfl rfl⟩

/-! ### Claim C8: the two provider calls commute -/

/-- C8: swapping the order of `get_mappings_for_version` and
`get_burger_data_for_version` for the same version yields identical
results for both calls (each provider is a pure read keyed by the
version, so neither reads state written by the other). -/
theorem providers_order_commutative (env : Env) (v : VersionId) :
    fetch_in_order env v = fetch_swapped env v := rfl

/-! ### Claim C6: the stages run in dataflow order -/

/-- C6: on every run, version resolution comes first; both providers are
invoked with the resolved version; metadata generation consumes the
retrieved entities together with the retrieved mapping table; dimension
generation consumes the same retrieved entities (and nothing else — its
call event has no other argument); and the formatter only ever runs after
both generator calls. -/
theorem pipeline_dataflow_order (env : Env) :
    (run env).trace.head? = some .callResolve ∧
    (∀ v, .callGetMappings v ∈ (run env).trace →
      env.get_version_id = .ok v) ∧
    (∀ v, .callGetBurger v ∈ (run env).trace →
      env.get_version_id = .ok v) ∧
    (∀ E M, .callGenMetadata E M ∈ (run env).trace →
      ∃ v bd, env.get_version_id = .ok v ∧
        env.get_mappings_for_version v = .ok M ∧
        env.get_burger_data_for_version v = .ok bd ∧
        burger_entities_data bd = .ok E) ∧
    (∀ E, .callGenDimensions E ∈ (run env).trace →
      ∃ v bd, env.get_version_id = .ok v ∧
        env.get_burger_data_for_version v = .ok bd ∧
        burger_entities_data bd = .ok E) ∧
    (.callFmt ∈ (run env).trace →
      ∃ pre post, (run env).trace = pre ++ .callFmt :: post ∧
        (∃ E M, .callGenMetadata E M ∈ pre) ∧
        (∃ E, .callGenDimensions E ∈ pre)) := by
  rcases run_cases env with ⟨e0, hv, hrun⟩ |
    ⟨v, hv, ⟨e0, hm, hrun⟩ | ⟨M, hm, ⟨e0, hb, hrun⟩ | ⟨bd, hb, ⟨e0, ha, hrun⟩ |
    ⟨E, ha, ⟨e0, hg, hrun⟩ | ⟨meta, hg, ⟨e0, hd, hrun⟩ | ⟨dims, hd,
    ⟨e0, hf, hrun⟩ | ⟨hf, hrun⟩⟩⟩⟩⟩⟩⟩ <;> rw [hrun]
  · exact ⟨rfl, by simp, by simp, by simp, by simp, by simp⟩
  · exact ⟨rfl, by simp [hv], by simp, by simp, by simp, by simp⟩
  · exact ⟨rfl, by simp [hv], by simp [hv], by simp, by simp, by simp⟩
  · exact ⟨rfl, by simp [hv], by simp [hv], by simp, by simp, by simp⟩
  · refine ⟨rfl, by simp [hv], by simp [hv], ?_, by simp, by simp⟩
    intro E' M' hmem
    simp only [List.mem_cons, List.mem_singleton, List.not_mem_nil, or_false] at hmem
    rcases hmem with h' | h' | h' | h' <;> cases h' <;> exact ⟨v, bd, hv, hm, hb, ha⟩
  · refine ⟨rfl, by simp [hv], by simp [hv], ?_, ?_, by simp⟩
    · intro E' M' hmem
      simp only [List.mem_cons, List.not_mem_nil, or_false] at hmem
      rcases hmem with h' | h' | h' | h' | h' <;> cases h' <;> exact ⟨v, bd, hv, hm, hb, ha⟩
    · intro E' hmem
      simp only [List.mem_cons, List.not_mem_nil, or_false] at hmem
      rcases hmem with h' | h' | h' | h' | h' <;> cases h' <;> exact ⟨v, bd, hv, hb, ha⟩
  · refine ⟨rfl, by simp [hv], by simp [hv], ?_, ?_, ?_⟩
    · intro E' M' hmem
      simp only [List.mem_cons, List.not_mem_nil, or_false] at hmem
      rcases hmem with h' | h' | h' | h' | h' | h' <;> cases h' <;> exact ⟨v, bd, hv, hm, hb, ha⟩
    · intro E' hmem
      simp only [List.mem_cons, List.not_mem_nil, or_false] at hmem
      rcases hmem with h' | h' | h' | h' | h' | h' <;> cases h' <;> exact ⟨v, bd, hv, hb, ha⟩
    · intro _
      exact ⟨[.callResolve, .callGetMappings v, .callGetBurger v,
              .callGenMetadata E M, .callGenDimensions E], [], rfl,
             ⟨E, M, by simp⟩, ⟨E, by simp⟩⟩
  · refine ⟨rfl, by simp [hv], by simp [hv], ?_, ?_, ?_⟩
    · intro E' M' hmem
      simp only [List.mem_cons, List.not_mem_nil, or_false] at hmem
      rcases hmem with h' | h' | h' | h' | h' | h' | h' <;> cases h' <;> exact ⟨v, bd, hv, hm, hb, ha⟩
    · intro E' hmem
      simp only [List.mem_cons, List.not_mem_nil, or_false] at hmem
      rcases hmem with h' | h' | h' | h' | h' | h' | h' <;> cases h' <;> exact ⟨v, bd, hv, hb, ha⟩
    · intro _
      exact ⟨[.callResolve, .callGetMappings v, .callGetBurger v,
              .callGenMetadata E M, .callGenDimensions E], [.printDone], rfl,
             ⟨E, M, by simp⟩, ⟨E, by simp⟩⟩

/-- Witness for C6 at the sect. 8 scenario environment. -/
theorem pipeline_dataflow_order_witness :
    (run envOk).trace.head? = some .callResolve ∧
    envOk.get_version_id = .ok "1.20" ∧
    (∃ v bd, envOk.get_version_id = .ok v ∧
      envOk.get_mappings_for_version v = .ok cowTable ∧
      envOk.get_burger_data_for_version v = .ok bd ∧
      burger_entities_data bd = .ok [cow]) ∧
    (∃ pre post, (run envOk).trace = pre ++ .callFmt :: post ∧
      (∃ E M, .callGenMetadata E M ∈ pre) ∧
      (∃ E, .callGenDimensions E ∈ pre)) :=
  ⟨(pipeline_dataflow_order envOk).1,
   (pipeline_dataflow_order envOk).2.1 "1.20" (by decide),
   (pipeline_dataflow_order envOk).2.2.2.1 [cow] cowTable (by decide),
   (pipeline_dataflow_order envOk).2.2.2.2.2 (by decide)⟩

/-! ### Claims C7 and C10: call multiplicities -/

/-- Recognizes the formatter invocation. -/
def isCallFmt : Event → Bool
  | .callFmt => true
  | _ => false

/-- Recognizes the version-resolution call. -/
def isCallResolve : Event → Bool
  | .callResolve => true
  | _ => false

/-- Recognizes a mapping-provider call. -/
def isCallGetMappings : Event → Bool
  | .callGetMappings _ => true
  | _ => false

/-- Recognizes an extracted-data-provider call. -/
def isCallGetBurger : Event → Bool
  | .callGetBurger _ => true
  | _ => false

/-- Recognizes a metadata-generator call. -/
def isCallGenMetadata : Event → Bool
  | .callGenMetadata _ _ => true
  | _ => false

/-- Recognizes a dimension-generator call. -/
def isCallGenDimensions : Event → Bool
  | .callGenDimensions _ => true
  | _ => false

/-- C7: the formatter is invoked at most once per run, and when it is
invoked, every earlier stage has succeeded, both artifacts are in place,
its invocation count is exactly one, and it appears in the trace strictly
after both generator calls.  (Structurally, `Event.callFmt` carries no
argument: `fmt()` is invoked with none.) -/
theorem formatter_once_after_generators (env : Env) :
    List.countP isCallFmt (run env).trace ≤ 1 ∧
    (.callFmt ∈ (run env).trace →
      ∃ v M bd E meta dims,
        env.get_version_id = .ok v ∧
        env.get_mappings_for_version v = .ok M ∧
        env.get_burger_data_for_version v = .ok bd ∧
        burger_entities_data bd = .ok E ∧
        generate_entity_metadata E M = .ok meta ∧
        generate_entity_dimensions E = .ok dims ∧
        (run env).metadata_artifact = some meta ∧
        (run env).dimensions_artifact = some dims ∧
        List.countP isCallFmt (run env).trace = 1 ∧
        ∃ pre post, (run env).trace = pre ++ .callFmt :: post ∧
          .callGenMetadata E M ∈ pre ∧ .callGenDimensions E ∈ pre) := by
  rcases run_cases env with ⟨e0, hv, hrun⟩ |
    ⟨v, hv, ⟨e0, hm, hrun⟩ | ⟨M, hm, ⟨e0, hb, hrun⟩ | ⟨bd, hb, ⟨e0, ha, hrun⟩ |
    ⟨E, ha, ⟨e0, hg, hrun⟩ | ⟨meta, hg, ⟨e0, hd, hrun⟩ | ⟨dims, hd,
    ⟨e0, hf, hrun⟩ | ⟨hf, hrun⟩⟩⟩⟩⟩⟩⟩ <;> rw [hrun] <;>
    refine ⟨by simp [List.countP_cons, List.countP_nil, isCallFmt, isCallResolve, isCallGetMappings, isCallGetBurger, isCallGenMetadata, isCallGenDimensions], ?_⟩ <;> intro hmem
  · simp at hmem
  · simp at hmem
  · simp at hmem
  · simp at hmem
  · simp at hmem
  · simp at hmem
  · exact ⟨v, M, bd, E, meta, dims, hv, hm, hb, ha, hg, hd, rfl, rfl,
      by simp [List.countP_cons, List.countP_nil, isCallFmt, isCallResolve, isCallGetMappings, isCallGetBurger, isCallGenMetadata, isCallGenDimensions],
      ⟨[.callResolve, .callGetMappings v, .callGetBurger v,
        .callGenMetadata E M, .callGenDimensions E], [], rfl, by simp, by simp⟩⟩
  · exact ⟨v, M, bd, E, meta, dims, hv, hm, hb, ha, hg, hd, rfl, rfl,
      by simp [List.countP_cons, List.countP_nil, isCallFmt, isCallResolve, isCallGetMappings, isCallGetBurger, isCallGenMetadata, isCallGenDimensions],
      ⟨[.callResolve, .callGetMappings v, .callGetBurger v,
        .callGenMetadata E M, .callGenDimensions E], [.printDone], rfl,
       by simp, by simp⟩⟩

/-- Witness for C7: the formatter runs in the sect. 8 scenario, so the
theorem's conditional part is discharged there. -/
theorem formatter_once_after_generators_witness :
    List.countP isCallFmt (run envOk).trace ≤ 1 ∧
    (∃ v M bd E meta dims,
      envOk.get_version_id = .ok v ∧
      envOk.get_mappings_for_version v = .ok M ∧
      envOk.get_burger_data_for_version v = .ok bd ∧
      burger_entities_data bd = .ok E ∧
      generate_entity_metadata E M = .ok meta ∧
      generate_entity_dimensions E = .ok dims ∧
      (run envOk).metadata_artifact = some meta ∧
      (run envOk).dimensions_artifact = some dims ∧
      List.countP isCallFmt (run envOk).trace = 1 ∧
      ∃ pre post, (run envOk).trace = pre ++ .callFmt :: post ∧
        .callGenMetadata E M ∈ pre ∧ .callGenDimensions E ∈ pre) :=
  ⟨(formatter_once_after_generators envOk).1,
   (formatter_once_after_generators envOk).2 (by decide)⟩

/-- C10: within one run the version is resolved exactly once; each
provider and each generator is called at most once — exactly once on a
completed run — always with the resolved version; the two provider calls
share one version; the two generator calls share one entities value; and
the entities handed to the metadata generator are exactly the ones
obtained from the single data retrieval. -/
theorem single_resolution_single_fetch (env : Env) :
    List.countP isCallResolve (run env).trace = 1 ∧
    List.countP isCallGetMappings (run env).trace ≤ 1 ∧
    List.countP isCallGetBurger (run env).trace ≤ 1 ∧
    List.countP isCallGenMetadata (run env).trace ≤ 1 ∧
    List.countP isCallGenDimensions (run env).trace ≤ 1 ∧
    (∀ v v', .callGetMappings v ∈ (run env).trace →
      .callGetBurger v' ∈ (run env).trace → v = v') ∧
    (∀ E M E', .callGenMetadata E M ∈ (run env).trace →
      .callGenDimensions E' ∈ (run env).trace → E = E') ∧
    (∀ E M, .callGenMetadata E M ∈ (run env).trace →
      ∃ v bd, env.get_version_id = .ok v ∧
        env.get_mappings_for_version v = .ok M ∧
        env.get_burger_data_for_version v = .ok bd ∧
        burger_entities_data bd = .ok E) ∧
    ((run env).result = .ok () →
      List.countP isCallGetMappings (run env).trace = 1 ∧
      List.countP isCallGetBurger (run env).trace = 1 ∧
      List.countP isCallGenMetadata (run env).trace = 1 ∧
      List.countP isCallGenDimensions (run env).trace = 1) := by
  rcases run_cases env with ⟨e0, hv, hrun⟩ |
    ⟨v, hv, ⟨e0, hm, hrun⟩ | ⟨M, hm, ⟨e0, hb, hrun⟩ | ⟨bd, hb, ⟨e0, ha, hrun⟩ |
    ⟨E, ha, ⟨e0, hg, hrun⟩ | ⟨meta, hg, ⟨e0, hd, hrun⟩ | ⟨dims, hd,
    ⟨e0, hf, hrun⟩ | ⟨hf, hrun⟩⟩⟩⟩⟩⟩⟩ <;> rw [hrun] <;>
    refine ⟨by simp [List.countP_cons, List.countP_nil, isCallFmt, isCallResolve, isCallGetMappings, isCallGetBurger, isCallGenMetadata, isCallGenDimensions], by simp [List.countP_cons, List.countP_nil, isCallFmt, isCallResolve, isCallGetMappings, isCallGetBurger, isCallGenMetadata, isCallGenDimensions],
            by simp [List.countP_cons, List.countP_nil, isCallFmt, isCallResolve, isCallGetMappings, isCallGetBurger, isCallGenMetadata, isCallGenDimensions], by simp [List.countP_cons, List.countP_nil, isCallFmt, isCallResolve, isCallGetMappings, isCallGetBurger, isCallGenMetadata, isCallGenDimensions],
            by simp [List.countP_cons, List.countP_nil, isCallFmt, isCallResolve, isCallGetMappings, isCallGetBurger, isCallGenMetadata, isCallGenDimensions], ?_, ?_, ?_, ?_⟩
  · intro a b h1 h2
    simp at h1
  · intro a b c h1 h2
    simp at h1
  · intro a b h1
    simp at h1
  · intro h
    simp at h
  · intro a b h1 h2
    simp at h2
  · intro a b c h1 h2
    simp at h1
  · intro a b h1
    simp at h1
  · intro h
    simp at h
  · intro a b h1 h2
    simp at h1 h2
    subst h1
    subst h2
    rfl
  · intro a b c h1 h2
    simp at h1
  · intro a b h1
    simp at h1
  · intro h
    simp at h
  · intro a b h1 h2
    simp at h1 h2
    subst h1
    subst h2
    rfl
  · intro a b c h1 h2
    simp at h1
  · intro a b h1
    simp at h1
  · intro h
    simp at h
  · intro a b h1 h2
    simp at h1 h2
    subst h1
    subst h2
    rfl
  · intro a b c h1 h2
    simp at h2
  · intro a b h1
    simp at h1
    obtain ⟨h1a, h1b⟩ := h1
    subst h1a
    subst h1b
    exact ⟨v, bd, hv, hm, hb, ha⟩
  · intro h
    simp at h
  · intro a b h1 h2
    simp at h1 h2
    subst h1
    subst h2
    rfl
  · intro a b c h1 h2
    simp at h1 h2
    obtain ⟨h1a, h1b⟩ := h1
    subst h1a
    subst h2
    rfl
  · intro a b h1
    simp at h1
    obtain ⟨h1a, h1b⟩ := h1
    subst h1a
    subst h1b
    exact ⟨v, bd, hv, hm, hb, ha⟩
  · intro h
    simp at h
  · intro a b h1 h2
    simp at h1 h2
    subst h1
    subst h2
    rfl
  · intro a b c h1 h2
    simp at h1 h2
    obtain ⟨h1a, h1b⟩ := h1
    subst h1a
    subst h2
    rfl
  · intro a b h1
    simp at h1
    obtain ⟨h1a, h1b⟩ := h1
    subst h1a
    subst h1b
    exact ⟨v, bd, hv, hm, hb, ha⟩
  · intro h
    simp at h
  · intro a b h1 h2
    simp at h1 h2
    subst h1
    subst h2
    rfl
  · intro a b c h1 h2
    simp at h1 h2
    obtain ⟨h1a, h1b⟩ := h1
    subst h1a
    subst h2
    rfl
  · intro a b h1
    simp at h1
    obtain ⟨h1a, h1b⟩ := h1
    subst h1a
    subst h1b
    exact ⟨v, bd, hv, hm, hb, ha⟩
  · intro h
    refine ⟨?_, ?_, ?_, ?_⟩ <;> simp [List.countP_cons, List.countP_nil, isCallFmt, isCallResolve, isCallGetMappings, isCallGetBurger, isCallGenMetadata, isCallGenDimensions]

/-- Witness for C10 at the sect. 8 scenario environment, where every stage
runs: the completed-run counts are all one, and the shared-entities parts
are discharged at the trace's own calls. -/
theorem single_resolution_single_fetch_witness :
    List.countP isCallResolve (run envOk).trace = 1 ∧
    ("1.20" : VersionId) = "1.20" ∧
    ([cow] : List RawEntityRecord) = [cow] ∧
    (∃ v bd, envOk.get_version_id = .ok v ∧
      envOk.get_mappings_for_version v = .ok cowTable ∧
      envOk.get_burger_data_for_version v = .ok bd ∧
      burger_entities_data bd = .ok [cow]) ∧
    (List.countP isCallGetMappings (run envOk).trace = 1 ∧
      List.countP isCallGetBurger (run envOk).trace = 1 ∧
      List.countP isCallGenMetadata (run envOk).trace = 1 ∧
      List.countP isCallGenDimensions (run envOk).trace = 1) :=
  ⟨(single_resolution_single_fetch envOk).1,
   (single_resolution_single_fetch envOk).2.2.2.2.2.1 "1.20" "1.20"
     (by decide) (by decide),
   (single_resolution_single_fetch envOk).2.2.2.2.2.2.1 [cow] cowTable [cow]
     (by decide) (by decide),
   (single_resolution_single_fetch envOk).2.2.2.2.2.2.2.1 [cow] cowTable
     (by decide),
   (single_resolution_single_fetch envOk).2.2.2.2.2.2.2.2 rfl⟩

end GenEntities
